import Mathlib

/-!
Verification of the array-API wrapper layer (`numpy/_array_api/_array_object.py`).

The development shallowly embeds the wrapper class `Array` and the helpers
`_promote_scalar`, `_normalize_two_args` and `_validate_index`, together with
the operator dispatch methods (`__add__`, `__truediv__`, `__pow__`,
`__lshift__`, `__imatmul__`, ...) that compose them.  The underlying dense
n-dimensional engine (NumPy's own ndarray kernels) is out of scope of the
repository's core and is not under `src/`; where its behavior is needed the
corresponding definition is modelled from the spec and carries a doc comment
starting with `Modelled from the spec:`.

Machine integers are embedded as `Int` with explicit wrapping modulo `2^w`;
floating-point element values are embedded as exact rationals (the spec's
scalar-promotion contract states the stored value equals the input scalar).
-/

attribute [local semireducible] Rat.mul Rat.add Rat.sub Rat.inv

namespace ArrayAPI

/-! ## Dtype registry (modelled from the spec)

Modelled from the spec: the dtype registry (`_dtypes.py`, not under `src/`)
enumerates boolean, signed/unsigned fixed-width integers and fixed-width
floating-point dtypes and partitions them into the three classes. -/

inductive Dtype where
  | bool | int8 | int16 | int32 | int64
  | uint8 | uint16 | uint32 | uint64
  | float32 | float64
  deriving DecidableEq, Repr

/-- Modelled from the spec: the boolean dtype class of the registry. -/
def _boolean_dtypes : List Dtype := [.bool]

/-- Modelled from the spec: the integer dtype class of the registry. -/
def _integer_dtypes : List Dtype :=
  [.int8, .int16, .int32, .int64, .uint8, .uint16, .uint32, .uint64]

/-- Modelled from the spec: the floating-point dtype class of the registry. -/
def _floating_dtypes : List Dtype := [.float32, .float64]

/-- Bit width of an integer dtype (0 for non-integer dtypes). -/
def Dtype.bits : Dtype → Nat
  | .int8 | .uint8 => 8
  | .int16 | .uint16 => 16
  | .int32 | .uint32 => 32
  | .int64 | .uint64 => 64
  | _ => 0

def Dtype.isSigned : Dtype → Bool
  | .int8 | .int16 | .int32 | .int64 => true
  | _ => false

/-- Wrap an integer into the representable range of an integer dtype
(two's-complement wraparound, `% 2^w` with a sign shift for signed dtypes). -/
def wrapInt (d : Dtype) (n : Int) : Int :=
  let w : Nat := d.bits
  if d.isSigned then ((n + 2 ^ (w - 1)) % 2 ^ w) - 2 ^ (w - 1)
  else n % 2 ^ w

/-- `n` is representable in integer dtype `d` without wrapping. -/
def inRange (d : Dtype) (n : Int) : Bool :=
  if d.isSigned then decide (-(2 ^ (d.bits - 1)) ≤ n ∧ n < 2 ^ (d.bits - 1))
  else decide (0 ≤ n ∧ n < (2 : Int) ^ d.bits)

/-- Modelled from the spec: a numeric rank giving the engine's dtype-promotion
lattice shape (a total order wide enough that promoting two integer dtypes can
yield a dtype wider than either operand; the engine's exact lattice is part of
the out-of-scope black-box engine). -/
def Dtype.rank : Dtype → Nat
  | .bool => 0
  | .int8 => 1 | .uint8 => 2
  | .int16 => 3 | .uint16 => 4
  | .int32 => 5 | .uint32 => 6
  | .int64 => 7 | .uint64 => 8
  | .float32 => 9 | .float64 => 10

/-- Modelled from the spec: the engine's dtype promotion for a pair of
operands (class-based: the higher-ranked dtype dominates). -/
def promoteTypes (a b : Dtype) : Dtype := if a.rank ≤ b.rank then b else a

/-! ## Element values and raw engine arrays -/

/-- An element value stored in an engine buffer.  Boolean dtypes store
booleans, integer dtypes store (wrapped) integers, floating dtypes store exact
rationals. -/
inductive Val where
  | bool (b : Bool)
  | int (n : Int)
  | float (q : ℚ)
  deriving DecidableEq, Repr

/-- The numeric value of an element, as Python `==` compares it
(`True == 1`, `1 == 1.0`). -/
def Val.toRat : Val → ℚ
  | .bool b => if b then 1 else 0
  | .int n => (n : ℚ)
  | .float q => q

/-- Truncation toward zero, as Python `int(...)` converts a float. -/
def ratTrunc (q : ℚ) : Int := q.num / (q.den : Int)

def Val.toInt (v : Val) : Int := ratTrunc v.toRat

/-- Cast a rational computation result into the value representation of a
target dtype (booleans by truthiness, integers with wraparound, floats
exactly). -/
def castRat (d : Dtype) (q : ℚ) : Val :=
  if d ∈ _boolean_dtypes then .bool (decide (q ≠ 0))
  else if d ∈ _integer_dtypes then .int (wrapInt d (ratTrunc q))
  else .float q

/-- A raw engine array (`np.ndarray`): a dtype tag, a shape and a flat
row-major buffer. -/
structure NpArray where
  dtype : Dtype
  shape : List Nat
  data : List Val
  deriving DecidableEq, Repr

/-- Cast every element of a raw array to a dtype (`ndarray.astype`). -/
def NpArray.astype (x : NpArray) (d : Dtype) : NpArray :=
  ⟨d, x.shape, x.data.map (fun v => castRat d v.toRat)⟩

/-- The single element of a zero-dimensional raw array. -/
def NpArray.item (x : NpArray) : Val := x.data.getD 0 (.int 0)

/-! ## Broadcasting (modelled from the spec)

Modelled from the spec: the black-box engine's shape broadcasting, pairing
dimensions from the trailing end, with size-1 dimensions stretched. -/

def bcastDim : Nat → Nat → Option Nat := fun m n =>
  if m = n then some m else if m = 1 then some n else if n = 1 then some m else none

/-- Combine two reversed shapes dimension by dimension. -/
def bcastRev : List Nat → List Nat → Option (List Nat)
  | [], s => some s
  | s, [] => some s
  | m :: ms, n :: ns =>
    match bcastDim m n, bcastRev ms ns with
    | some d, some rest => some (d :: rest)
    | _, _ => none

/-- Modelled from the spec: the broadcast of two shapes, `none` when the
shapes are incompatible. -/
def broadcastShapes (s1 s2 : List Nat) : Option (List Nat) :=
  (bcastRev s1.reverse s2.reverse).map List.reverse

/-- All multi-indices of a shape, in row-major order. -/
def allIndices : List Nat → List (List Nat)
  | [] => [[]]
  | n :: rest => (List.range n).flatMap (fun i => (allIndices rest).map (i :: ·))

/-- Row-major flat offset of a multi-index, reading size-1 dimensions at
position 0 (which realizes broadcast stretching). -/
def flatIndex (shape ix : List Nat) : Nat :=
  (shape.zip ix).foldl (fun acc p => acc * p.1 + (if p.1 = 1 then 0 else p.2)) 0

/-- Read an element of a raw array at a (possibly longer, broadcast)
multi-index; trailing-aligned as in broadcasting. -/
def ndGet (a : NpArray) (ix : List Nat) : Val :=
  a.data.getD (flatIndex a.shape (ix.drop (ix.length - a.shape.length))) (.int 0)

/-! ## Engine elementwise kernels (modelled from the spec)

Modelled from the spec: the elementwise scalar kernels of the black-box
engine.  Arithmetic is exact on rationals and then cast into the output dtype
(integer results wrap modulo `2^w`).  The bitwise kernels are modelled on
booleans and nonnegative integers; transcendental power is modelled exactly on
integer exponents (the engine's numerical kernels are out of scope). -/

/-- Structural natural power on rationals (kernel-reducible). -/
def ratNPow (x : ℚ) : Nat → ℚ
  | 0 => 1
  | n + 1 => x * ratNPow x n

/-- Structural integer power on rationals. -/
def ratZPow (x : ℚ) (z : Int) : ℚ :=
  if 0 ≤ z then ratNPow x z.toNat else (ratNPow x (-z).toNat)⁻¹

def addK (v w : Val) : ℚ := v.toRat + w.toRat
def subK (v w : Val) : ℚ := v.toRat - w.toRat
def mulK (v w : Val) : ℚ := v.toRat * w.toRat
def divK (v w : Val) : ℚ := v.toRat / w.toRat
def floordivK (v w : Val) : ℚ := ((v.toRat / w.toRat).floor : ℚ)
def modK (v w : Val) : ℚ := v.toRat - w.toRat * ((v.toRat / w.toRat).floor : ℚ)
def powK (v w : Val) : ℚ :=
  let e := w.toRat
  if e.den = 1 then ratZPow v.toRat e.num else 0
def lshiftK (v w : Val) : ℚ := v.toRat * ratZPow 2 w.toInt
def rshiftK (v w : Val) : ℚ := ((v.toRat / ratZPow 2 w.toInt).floor : ℚ)
def andK (v w : Val) : ℚ := (Nat.land v.toInt.toNat w.toInt.toNat : ℚ)
def orK (v w : Val) : ℚ := (Nat.lor v.toInt.toNat w.toInt.toNat : ℚ)
def xorK (v w : Val) : ℚ := (Nat.xor v.toInt.toNat w.toInt.toNat : ℚ)
def eqK (v w : Val) : ℚ := if v.toRat = w.toRat then 1 else 0
def neK (v w : Val) : ℚ := if v.toRat = w.toRat then 0 else 1
def ltK (v w : Val) : ℚ := if v.toRat < w.toRat then 1 else 0
def leK (v w : Val) : ℚ := if v.toRat ≤ w.toRat then 1 else 0
def gtK (v w : Val) : ℚ := if w.toRat < v.toRat then 1 else 0
def geK (v w : Val) : ℚ := if w.toRat ≤ v.toRat then 1 else 0

/-! ## Errors -/

inductive PyErr where
  | typeError (msg : String)
  | indexError (msg : String)
  | valueError (msg : String)
  | overflowError (msg : String)
  | notImplementedError (msg : String)
  deriving DecidableEq, Repr

deriving instance DecidableEq for Except

def isTypeError {α : Type} : Except PyErr α → Bool
  | .error (.typeError _) => true
  | _ => false

def isIndexError {α : Type} : Except PyErr α → Bool
  | .error (.indexError _) => true
  | _ => false

def isValueError {α : Type} : Except PyErr α → Bool
  | .error (.valueError _) => true
  | _ => false

/-! ## Engine elementwise binary operations (modelled from the spec) -/

/-- Modelled from the spec: a generic elementwise binary operation of the
black-box engine: broadcast the shapes (a value error on incompatible
shapes), compute the output dtype from the operands' dtypes, and map the
scalar kernel over all positions, casting into the output dtype. -/
def engineBinop (f : Val → Val → ℚ) (outDtype : Dtype → Dtype → Dtype)
    (a b : NpArray) : Except PyErr NpArray :=
  match broadcastShapes a.shape b.shape with
  | none => .error (.valueError "operands could not be broadcast together")
  | some sh =>
    let d := outDtype a.dtype b.dtype
    .ok ⟨d, sh, (allIndices sh).map (fun ix => castRat d (f (ndGet a ix) (ndGet b ix)))⟩

/-- Modelled from the spec: a generic in-place elementwise binary operation of
the engine: the broadcast result must keep the receiver's shape (otherwise the
engine raises a value error), the receiver's dtype is kept, and the buffer is
overwritten. -/
def engineIBinop (f : Val → Val → ℚ) (self other : NpArray) : Except PyErr NpArray :=
  match broadcastShapes self.shape other.shape with
  | none => .error (.valueError "operands could not be broadcast together")
  | some sh =>
    if sh = self.shape then
      .ok ⟨self.dtype, self.shape,
        (allIndices self.shape).map (fun ix => castRat self.dtype (f (ndGet self ix) (ndGet other ix)))⟩
    else .error (.valueError "non-broadcastable output operand")

def engine_add : NpArray → NpArray → Except PyErr NpArray := engineBinop addK promoteTypes
def engine_sub : NpArray → NpArray → Except PyErr NpArray := engineBinop subK promoteTypes
def engine_mul : NpArray → NpArray → Except PyErr NpArray := engineBinop mulK promoteTypes
def engine_truediv : NpArray → NpArray → Except PyErr NpArray := engineBinop divK promoteTypes
def engine_floordiv : NpArray → NpArray → Except PyErr NpArray := engineBinop floordivK promoteTypes
def engine_mod : NpArray → NpArray → Except PyErr NpArray := engineBinop modK promoteTypes
def engine_pow : NpArray → NpArray → Except PyErr NpArray := engineBinop powK promoteTypes
def engine_lshift : NpArray → NpArray → Except PyErr NpArray := engineBinop lshiftK promoteTypes
def engine_rshift : NpArray → NpArray → Except PyErr NpArray := engineBinop rshiftK promoteTypes
def engine_and : NpArray → NpArray → Except PyErr NpArray := engineBinop andK promoteTypes
def engine_or : NpArray → NpArray → Except PyErr NpArray := engineBinop orK promoteTypes
def engine_xor : NpArray → NpArray → Except PyErr NpArray := engineBinop xorK promoteTypes
def engine_eq : NpArray → NpArray → Except PyErr NpArray := engineBinop eqK (fun _ _ => .bool)
def engine_ne : NpArray → NpArray → Except PyErr NpArray := engineBinop neK (fun _ _ => .bool)
def engine_lt : NpArray → NpArray → Except PyErr NpArray := engineBinop ltK (fun _ _ => .bool)
def engine_le : NpArray → NpArray → Except PyErr NpArray := engineBinop leK (fun _ _ => .bool)
def engine_gt : NpArray → NpArray → Except PyErr NpArray := engineBinop gtK (fun _ _ => .bool)
def engine_ge : NpArray → NpArray → Except PyErr NpArray := engineBinop geK (fun _ _ => .bool)

/-! ## Python scalars -/

/-- A native Python scalar: `bool` is checked before `int` in the source
because Python's `bool` is a subclass of `int`; the embedding separates the
three kinds as constructors. -/
inductive PySc where
  | bool (b : Bool)
  | int (n : Int)
  | float (q : ℚ)
  deriving DecidableEq, Repr

/-- An arbitrary input to `_promote_scalar`: a native scalar or anything else
(the source's final `else` branch). -/
inductive PyVal where
  | sc (s : PySc)
  | other
  deriving DecidableEq, Repr

def PySc.toRat : PySc → ℚ
  | .bool b => if b then 1 else 0
  | .int n => (n : ℚ)
  | .float q => q

/-- Modelled from the spec: the engine's construction `np.array(scalar, dtype)`
of a zero-dimensional array from a native scalar.  The stored value equals the
input scalar (spec 4.1: "value equal to the input scalar"); out-of-range
integers are cast per the engine's native wraparound behavior (spec 4.1 defers
out-of-range handling to the engine). -/
def np_array_scalar (s : PySc) (d : Dtype) : NpArray :=
  if d ∈ _boolean_dtypes then ⟨d, [], [.bool (decide (s.toRat ≠ 0))]⟩
  else if d ∈ _integer_dtypes then ⟨d, [], [.int (wrapInt d (ratTrunc s.toRat))]⟩
  else ⟨d, [], [.float s.toRat]⟩

/-! ## The wrapper class `Array` -/

/-- The array-API wrapper object: holds a reference to a raw engine array in
its `_array` attribute. -/
structure Array where
  _array : NpArray
  deriving DecidableEq, Repr

/-- `Array._new`: the private adoption constructor (array scalars do not occur
in the embedding, so the `np.generic` collapse branch is the identity). -/
def Array._new (x : NpArray) : Array := ⟨x⟩

def Array.dtype (self : Array) : Dtype := self._array.dtype

def Array.shape (self : Array) : List Nat := self._array.shape

/-- `Array._promote_scalar`: promote a Python scalar for use with operations
on `self`, checking the scalar's kind in the order bool, int, float. -/
def Array._promote_scalar (self : Array) (scalar : PyVal) : Except PyErr Array :=
  match scalar with
  | .sc (.bool b) =>
    if self.dtype ∉ _boolean_dtypes then
      .error (.typeError "Python bool scalars can only be promoted with bool arrays")
    else .ok (Array._new (np_array_scalar (.bool b) self.dtype))
  | .sc (.int n) =>
    if self.dtype ∈ _boolean_dtypes then
      .error (.typeError "Python int scalars cannot be promoted with bool arrays")
    else .ok (Array._new (np_array_scalar (.int n) self.dtype))
  | .sc (.float q) =>
    if self.dtype ∉ _floating_dtypes then
      .error (.typeError "Python float scalars can only be promoted with floating-point arrays.")
    else .ok (Array._new (np_array_scalar (.float q) self.dtype))
  | .other => .error (.typeError "'scalar' must be a Python scalar")

/-- Modelled from the spec: `x[None]`, the engine view of `x` with one leading
dimension of size 1 inserted (same dtype, same buffer). -/
def NpArray.newaxis (x : NpArray) : NpArray := ⟨x.dtype, 1 :: x.shape, x.data⟩

/-- `Array._normalize_two_args`: add a leading dimension to a 0-dimensional
operand paired with a non-0-dimensional one, so the engine's value-based
promotion is not triggered. -/
def Array._normalize_two_args (x1 x2 : Array) : Array × Array :=
  if x1.shape = [] ∧ x2.shape ≠ [] then
    (Array._new x1._array.newaxis, x2)
  else if x2.shape = [] ∧ x1.shape ≠ [] then
    (x1, Array._new x2._array.newaxis)
  else (x1, x2)

/-! ## Operator dispatch layer

Each double-underscore method is transcribed from the source: native scalar
operands are promoted with `self`'s dtype as target, the pair is normalized
(for the ops that do so in the source), and the corresponding engine operation
is invoked, its result wrapped by `Array._new`. -/

/-- The `other` operand of a binary operator: a native scalar (caught by the
source's `isinstance(other, (int, float, bool))` test) or another wrapper. -/
inductive ScA where
  | sc (s : PySc)
  | arr (a : Array)
  deriving DecidableEq, Repr

/-- The source's scalar-promotion prologue shared by every binary operator. -/
def promoteOther (self : Array) : ScA → Except PyErr Array
  | .sc s => self._promote_scalar (.sc s)
  | .arr a => .ok a

/-- The spec's dispatch shape for a plain binary operator (4.4): promote the
scalar operand, normalize the pair, delegate to the engine, wrap. -/
def normalizedDispatch (engineOp : NpArray → NpArray → Except PyErr NpArray)
    (self : Array) (other : ScA) : Except PyErr Array :=
  match promoteOther self other with
  | .error e => .error e
  | .ok o =>
    let p := Array._normalize_two_args self o
    match engineOp p.1._array p.2._array with
    | .error e => .error e
    | .ok r => .ok (Array._new r)

/-- The spec's dispatch shape for a reflected binary operator: as
`normalizedDispatch` but the engine receives the operands in swapped order. -/
def reflectedDispatch (engineOp : NpArray → NpArray → Except PyErr NpArray)
    (self : Array) (other : ScA) : Except PyErr Array :=
  match promoteOther self other with
  | .error e => .error e
  | .ok o =>
    let p := Array._normalize_two_args self o
    match engineOp p.2._array p.1._array with
    | .error e => .error e
    | .ok r => .ok (Array._new r)

/-- The spec's dispatch shape for an in-place binary operator: promote the
scalar operand and delegate directly to the engine's in-place operation on the
receiver's buffer (no normalization), returning the mutated receiver. -/
def inplaceDispatch (f : Val → Val → ℚ) (self : Array) (other : ScA) :
    Except PyErr Array :=
  match promoteOther self other with
  | .error e => .error e
  | .ok o =>
    match engineIBinop f self._array o._array with
    | .error e => .error e
    | .ok r => .ok ⟨r⟩

def Array.__add__ (self : Array) (other : ScA) : Except PyErr Array :=
  match promoteOther self other with
  | .error e => .error e
  | .ok o =>
    let p := Array._normalize_two_args self o
    match engine_add p.1._array p.2._array with
    | .error e => .error e
    | .ok r => .ok (Array._new r)

def Array.__and__ (self : Array) (other : ScA) : Except PyErr Array :=
  match promoteOther self other with
  | .error e => .error e
  | .ok o =>
    let p := Array._normalize_two_args self o
    match engine_and p.1._array p.2._array with
    | .error e => .error e
    | .ok r => .ok (Array._new r)

def Array.__eq__ (self : Array) (other : ScA) : Except PyErr Array :=
  match promoteOther self other with
  | .error e => .error e
  | .ok o =>
    let p := Array._normalize_two_args self o
    match engine_eq p.1._array p.2._array with
    | .error e => .error e
    | .ok r => .ok (Array._new r)

def Array.__floordiv__ (self : Array) (other : ScA) : Except PyErr Array :=
  match promoteOther self other with
  | .error e => .error e
  | .ok o =>
    let p := Array._normalize_two_args self o
    match engine_floordiv p.1._array p.2._array with
    | .error e => .error e
    | .ok r => .ok (Array._new r)

def Array.__ge__ (self : Array) (other : ScA) : Except PyErr Array :=
  match promoteOther self other with
  | .error e => .error e
  | .ok o =>
    let p := Array._normalize_two_args self o
    match engine_ge p.1._array p.2._array with
    | .error e => .error e
    | .ok r => .ok (Array._new r)

def Array.__gt__ (self : Array) (other : ScA) : Except PyErr Array :=
  match promoteOther self other with
  | .error e => .error e
  | .ok o =>
    let p := Array._normalize_two_args self o
    match engine_gt p.1._array p.2._array with
    | .error e => .error e
    | .ok r => .ok (Array._new r)

def Array.__le__ (self : Array) (other : ScA) : Except PyErr Array :=
  match promoteOther self other with
  | .error e => .error e
  | .ok o =>
    let p := Array._normalize_two_args self o
    match engine_le p.1._array p.2._array with
    | .error e => .error e
    | .ok r => .ok (Array._new r)

def Array.__lt__ (self : Array) (other : ScA) : Except PyErr Array :=
  match promoteOther self other with
  | .error e => .error e
  | .ok o =>
    let p := Array._normalize_two_args self o
    match engine_lt p.1._array p.2._array with
    | .error e => .error e
    | .ok r => .ok (Array._new r)

def Array.__mod__ (self : Array) (other : ScA) : Except PyErr Array :=
  match promoteOther self other with
  | .error e => .error e
  | .ok o =>
    let p := Array._normalize_two_args self o
    match engine_mod p.1._array p.2._array with
    | .error e => .error e
    | .ok r => .ok (Array._new r)

def Array.__mul__ (self : Array) (other : ScA) : Except PyErr Array :=
  match promoteOther self other with
  | .error e => .error e
  | .ok o =>
    let p := Array._normalize_two_args self o
    match engine_mul p.1._array p.2._array with
    | .error e => .error e
    | .ok r => .ok (Array._new r)

def Array.__ne__ (self : Array) (other : ScA) : Except PyErr Array :=
  match promoteOther self other with
  | .error e => .error e
  | .ok o =>
    let p := Array._normalize_two_args self o
    match engine_ne p.1._array p.2._array with
    | .error e => .error e
    | .ok r => .ok (Array._new r)

def Array.__or__ (self : Array) (other : ScA) : Except PyErr Array :=
  match promoteOther self other with
  | .error e => .error e
  | .ok o =>
    let p := Array._normalize_two_args self o
    match engine_or p.1._array p.2._array with
    | .error e => .error e
    | .ok r => .ok (Array._new r)

def Array.__sub__ (self : Array) (other : ScA) : Except PyErr Array :=
  match promoteOther self other with
  | .error e => .error e
  | .ok o =>
    let p := Array._normalize_two_args self o
    match engine_sub p.1._array p.2._array with
    | .error e => .error e
    | .ok r => .ok (Array._new r)

def Array.__truediv__ (self : Array) (other : ScA) : Except PyErr Array :=
  match promoteOther self other with
  | .error e => .error e
  | .ok o =>
    if self.dtype ∉ _floating_dtypes ∨ o.dtype ∉ _floating_dtypes then
      .error (.typeError "Only floating-point dtypes are allowed in __truediv__")
    else
      let p := Array._normalize_two_args self o
      match engine_truediv p.1._array p.2._array with
      | .error e => .error e
      | .ok r => .ok (Array._new r)

def Array.__xor__ (self : Array) (other : ScA) : Except PyErr Array :=
  match promoteOther self other with
  | .error e => .error e
  | .ok o =>
    let p := Array._normalize_two_args self o
    match engine_xor p.1._array p.2._array with
    | .error e => .error e
    | .ok r => .ok (Array._new r)

/-- Modelled from the spec: `pow` from the elementwise-functions module (not
under `src/`): it applies the shape-asymmetry normalizer and delegates to the
engine's power kernel (the source's `__pow__` uses it instead of the engine's
`__pow__` because the latter does not follow the spec's promotion on
0-dimensional arrays). -/
def ew_pow (x1 x2 : Array) : Except PyErr Array :=
  let p := Array._normalize_two_args x1 x2
  match engine_pow p.1._array p.2._array with
  | .error e => .error e
  | .ok r => .ok (Array._new r)

def Array.__pow__ (self : Array) (other : ScA) : Except PyErr Array :=
  match promoteOther self other with
  | .error e => .error e
  | .ok o =>
    if self.dtype ∉ _floating_dtypes ∨ o.dtype ∉ _floating_dtypes then
      .error (.typeError "Only floating-point dtypes are allowed in __pow__")
    else ew_pow self o

def Array.__lshift__ (self : Array) (other : ScA) : Except PyErr Array :=
  match promoteOther self other with
  | .error e => .error e
  | .ok o =>
    match engine_lshift self._array o._array with
    | .error e => .error e
    | .ok r => .ok (Array._new (r.astype self.dtype))

def Array.__rshift__ (self : Array) (other : ScA) : Except PyErr Array :=
  match promoteOther self other with
  | .error e => .error e
  | .ok o =>
    match engine_rshift self._array o._array with
    | .error e => .error e
    | .ok r => .ok (Array._new (r.astype self.dtype))

def Array.__radd__ (self : Array) (other : ScA) : Except PyErr Array :=
  match promoteOther self other with
  | .error e => .error e
  | .ok o =>
    let p := Array._normalize_two_args self o
    match engine_add p.2._array p.1._array with
    | .error e => .error e
    | .ok r => .ok (Array._new r)

def Array.__rand__ (self : Array) (other : ScA) : Except PyErr Array :=
  match promoteOther self other with
  | .error e => .error e
  | .ok o =>
    let p := Array._normalize_two_args self o
    match engine_and p.2._array p.1._array with
    | .error e => .error e
    | .ok r => .ok (Array._new r)

def Array.__rfloordiv__ (self : Array) (other : ScA) : Except PyErr Array :=
  match promoteOther self other with
  | .error e => .error e
  | .ok o =>
    let p := Array._normalize_two_args self o
    match engine_floordiv p.2._array p.1._array with
    | .error e => .error e
    | .ok r => .ok (Array._new r)

def Array.__rmod__ (self : Array) (other : ScA) : Except PyErr Array :=
  match promoteOther self other with
  | .error e => .error e
  | .ok o =>
    let p := Array._normalize_two_args self o
    match engine_mod p.2._array p.1._array with
    | .error e => .error e
    | .ok r => .ok (Array._new r)

def Array.__rmul__ (self : Array) (other : ScA) : Except PyErr Array :=
  match promoteOther self other with
  | .error e => .error e
  | .ok o =>
    let p := Array._normalize_two_args self o
    match engine_mul p.2._array p.1._array with
    | .error e => .error e
    | .ok r => .ok (Array._new r)

def Array.__ror__ (self : Array) (other : ScA) : Except PyErr Array :=
  match promoteOther self other with
  | .error e => .error e
  | .ok o =>
    let p := Array._normalize_two_args self o
    match engine_or p.2._array p.1._array with
    | .error e => .error e
    | .ok r => .ok (Array._new r)

def Array.__rsub__ (self : Array) (other : ScA) : Except PyErr Array :=
  match promoteOther self other with
  | .error e => .error e
  | .ok o =>
    let p := Array._normalize_two_args self o
    match engine_sub p.2._array p.1._array with
    | .error e => .error e
    | .ok r => .ok (Array._new r)

def Array.__rtruediv__ (self : Array) (other : ScA) : Except PyErr Array :=
  match promoteOther self other with
  | .error e => .error e
  | .ok o =>
    if self.dtype ∉ _floating_dtypes ∨ o.dtype ∉ _floating_dtypes then
      .error (.typeError "Only floating-point dtypes are allowed in __truediv__")
    else
      let p := Array._normalize_two_args self o
      match engine_truediv p.2._array p.1._array with
      | .error e => .error e
      | .ok r => .ok (Array._new r)

def Array.__rxor__ (self : Array) (other : ScA) : Except PyErr Array :=
  match promoteOther self other with
  | .error e => .error e
  | .ok o =>
    let p := Array._normalize_two_args self o
    match engine_xor p.2._array p.1._array with
    | .error e => .error e
    | .ok r => .ok (Array._new r)

def Array.__rpow__ (self : Array) (other : ScA) : Except PyErr Array :=
  match promoteOther self other with
  | .error e => .error e
  | .ok o =>
    if self.dtype ∉ _floating_dtypes ∨ o.dtype ∉ _floating_dtypes then
      .error (.typeError "Only floating-point dtypes are allowed in __pow__")
    else ew_pow o self

def Array.__rlshift__ (self : Array) (other : ScA) : Except PyErr Array :=
  match promoteOther self other with
  | .error e => .error e
  | .ok o =>
    match engine_lshift o._array self._array with
    | .error e => .error e
    | .ok r => .ok (Array._new (r.astype o.dtype))

def Array.__rrshift__ (self : Array) (other : ScA) : Except PyErr Array :=
  match promoteOther self other with
  | .error e => .error e
  | .ok o =>
    match engine_rshift o._array self._array with
    | .error e => .error e
    | .ok r => .ok (Array._new (r.astype o.dtype))

def Array.__iadd__ (self : Array) (other : ScA) : Except PyErr Array :=
  match promoteOther self other with
  | .error e => .error e
  | .ok o =>
    match engineIBinop addK self._array o._array with
    | .error e => .error e
    | .ok r => .ok ⟨r⟩

def Array.__iand__ (self : Array) (other : ScA) : Except PyErr Array :=
  match promoteOther self other with
  | .error e => .error e
  | .ok o =>
    match engineIBinop andK self._array o._array with
    | .error e => .error e
    | .ok r => .ok ⟨r⟩

def Array.__ifloordiv__ (self : Array) (other : ScA) : Except PyErr Array :=
  match promoteOther self other with
  | .error e => .error e
  | .ok o =>
    match engineIBinop floordivK self._array o._array with
    | .error e => .error e
    | .ok r => .ok ⟨r⟩

def Array.__imod__ (self : Array) (other : ScA) : Except PyErr Array :=
  match promoteOther self other with
  | .error e => .error e
  | .ok o =>
    match engineIBinop modK self._array o._array with
    | .error e => .error e
    | .ok r => .ok ⟨r⟩

def Array.__imul__ (self : Array) (other : ScA) : Except PyErr Array :=
  match promoteOther self other with
  | .error e => .error e
  | .ok o =>
    match engineIBinop mulK self._array o._array with
    | .error e => .error e
    | .ok r => .ok ⟨r⟩

def Array.__ior__ (self : Array) (other : ScA) : Except PyErr Array :=
  match promoteOther self other with
  | .error e => .error e
  | .ok o =>
    match engineIBinop orK self._array o._array with
    | .error e => .error e
    | .ok r => .ok ⟨r⟩

def Array.__isub__ (self : Array) (other : ScA) : Except PyErr Array :=
  match promoteOther self other with
  | .error e => .error e
  | .ok o =>
    match engineIBinop subK self._array o._array with
    | .error e => .error e
    | .ok r => .ok ⟨r⟩

def Array.__ixor__ (self : Array) (other : ScA) : Except PyErr Array :=
  match promoteOther self other with
  | .error e => .error e
  | .ok o =>
    match engineIBinop xorK self._array o._array with
    | .error e => .error e
    | .ok r => .ok ⟨r⟩

def Array.__itruediv__ (self : Array) (other : ScA) : Except PyErr Array :=
  match promoteOther self other with
  | .error e => .error e
  | .ok o =>
    if self.dtype ∉ _floating_dtypes ∨ o.dtype ∉ _floating_dtypes then
      .error (.typeError "Only floating-point dtypes are allowed in __truediv__")
    else
      match engineIBinop divK self._array o._array with
      | .error e => .error e
      | .ok r => .ok ⟨r⟩

def Array.__ipow__ (self : Array) (other : ScA) : Except PyErr Array :=
  match promoteOther self other with
  | .error e => .error e
  | .ok o =>
    if self.dtype ∉ _floating_dtypes ∨ o.dtype ∉ _floating_dtypes then
      .error (.typeError "Only floating-point dtypes are allowed in __pow__")
    else
      match engineIBinop powK self._array o._array with
      | .error e => .error e
      | .ok r => .ok ⟨r⟩

def Array.__ilshift__ (self : Array) (other : ScA) : Except PyErr Array :=
  match promoteOther self other with
  | .error e => .error e
  | .ok o =>
    match engineIBinop lshiftK self._array o._array with
    | .error e => .error e
    | .ok r => .ok ⟨r⟩

def Array.__irshift__ (self : Array) (other : ScA) : Except PyErr Array :=
  match promoteOther self other with
  | .error e => .error e
  | .ok o =>
    match engineIBinop rshiftK self._array o._array with
    | .error e => .error e
    | .ok r => .ok ⟨r⟩

/-! ## Matrix multiplication (engine kernel modelled from the spec) -/

/-- Sum of products of two indexed families over `k` positions. -/
def dotQ (f g : Nat → ℚ) (k : Nat) : ℚ :=
  (List.range k).foldl (fun acc t => acc + f t * g t) 0

/-- Modelled from the spec: the engine's matrix-product kernel (linear-algebra
kernels are an out-of-scope collaborator).  Modelled exactly for operand ranks
1 and 2 (all cases the claims exercise); 0-dimensional operands and
higher-rank batched products are reported as value errors. -/
def engineMatmul (a b : NpArray) : Except PyErr NpArray :=
  let d := promoteTypes a.dtype b.dtype
  let av := fun (ix : List Nat) => (ndGet a ix).toRat
  let bv := fun (ix : List Nat) => (ndGet b ix).toRat
  match a.shape, b.shape with
  | [n], [m] =>
    if n = m then .ok ⟨d, [], [castRat d (dotQ (fun t => av [t]) (fun t => bv [t]) n)]⟩
    else .error (.valueError "matmul: dimension mismatch")
  | [n], [m, p] =>
    if n = m then
      .ok ⟨d, [p], (List.range p).map (fun j =>
        castRat d (dotQ (fun t => av [t]) (fun t => bv [t, j]) n))⟩
    else .error (.valueError "matmul: dimension mismatch")
  | [n, m], [p] =>
    if m = p then
      .ok ⟨d, [n], (List.range n).map (fun i =>
        castRat d (dotQ (fun t => av [i, t]) (fun t => bv [t]) m))⟩
    else .error (.valueError "matmul: dimension mismatch")
  | [n, m], [p, q] =>
    if m = p then
      .ok ⟨d, [n, q], (List.range n).flatMap (fun i => (List.range q).map (fun j =>
        castRat d (dotQ (fun t => av [i, t]) (fun t => bv [t, j]) m)))⟩
    else .error (.valueError "matmul: dimension mismatch")
  | _, _ => .error (.valueError "matmul: operand ranks not supported by this model")

/-- Modelled from the spec: whether the engine accepts the full-slice
assignment `self[:] = src`, i.e. `src`'s shape broadcasts to `self`'s shape
(modelled for sources of rank at most the target's rank, which covers every
shape the in-place matmul can produce here). -/
def canAssignBroadcast (src tgt : List Nat) : Bool :=
  decide (broadcastShapes src tgt = some tgt) && decide (src.length ≤ tgt.length)

/-- `Array.__imatmul__`: in-place matrix multiplication.  Checks that the
operation cannot change the receiver's shape, then performs
`self._array[:] = self._array.__matmul__(other._array)`. -/
def Array.__imatmul__ (self : Array) (other : ScA) : Except PyErr Array :=
  match promoteOther self other with
  | .error e => .error e
  | .ok o =>
    let other_shape := o.shape
    if self.shape = [] ∨ other_shape = [] then
      .error (.valueError "@= requires at least one dimension")
    else if other_shape.length = 1 ∨ other_shape.getLastD 0 ≠ other_shape.dropLast.getLastD 0 then
      .error (.valueError "@= cannot change the shape of the input array")
    else
      match engineMatmul self._array o._array with
      | .error e => .error e
      | .ok res =>
        if canAssignBroadcast res.shape self.shape then
          .ok ⟨⟨self.dtype, self.shape,
            (allIndices self.shape).map (fun ix => castRat self.dtype (ndGet res ix).toRat)⟩⟩
        else .error (.valueError "could not broadcast input array into output shape")

/-! ## Scalar extraction and protocol methods -/

/-- `Array.__bool__`: only allowed on arrays with shape `()`. -/
def Array.__bool__ (self : Array) : Except PyErr Bool :=
  if self._array.shape ≠ [] then
    .error (.typeError "bool is only allowed on arrays with shape ()")
  else .ok (decide (self._array.item.toRat ≠ 0))

/-- `Array.__int__`: only allowed on arrays with shape `()`; floats truncate
toward zero as Python's `int(...)` does. -/
def Array.__int__ (self : Array) : Except PyErr Int :=
  if self._array.shape ≠ [] then
    .error (.typeError "int is only allowed on arrays with shape ()")
  else .ok self._array.item.toInt

/-- `Array.__float__`: only allowed on arrays with shape `()`. -/
def Array.__float__ (self : Array) : Except PyErr ℚ :=
  if self._array.shape ≠ [] then
    .error (.typeError "float is only allowed on arrays with shape ()")
  else .ok self._array.item.toRat

/-- Modelled from the spec: the engine's device-identity query of the
foreign-buffer-exchange protocol.  Device support is an explicit unimplemented
gap, so requesting device identity signals a not-implemented error. -/
def ndarray_dlpack_device (_x : NpArray) : Except PyErr (Nat × Nat) :=
  .error (.notImplementedError "device support is not implemented")

/-- `Array.__dlpack_device__`: passes through to the engine's device-identity
query.  (The source would wrap the engine's answer via `Array._new`; under the
modelled engine the query always signals, so the wrap is unreachable.) -/
def Array.__dlpack_device__ (self : Array) : Except PyErr (Nat × Nat) :=
  match ndarray_dlpack_device self._array with
  | .error e => .error e
  | .ok r => .ok r

/-- The `device` attribute accessor: not yet implemented. -/
def Array.device (_self : Array) : Except PyErr Unit :=
  .error (.notImplementedError "The device attribute is not yet implemented")

/-! ## Index validation -/

/-- A Python slice object whose start/stop/step are integer-convertible or
omitted (slices with symbolic bounds are passed through unchecked by the
source and are outside the claims' scope). -/
structure PySlice where
  start : Option Int
  stop : Option Int
  step : Option Int
  deriving DecidableEq, Repr

/-- A non-tuple index component: a slice, a Python bool, a wrapper `Array`, a
raw engine array (as produced by the validator's own rewriting of wrapper
arrays), an ellipsis, the `None` new-axis marker, an integer-convertible
index, or anything else (the unconvertible fallback). -/
inductive AKey where
  | slice (s : PySlice)
  | bool (b : Bool)
  | arr (a : Array)
  | nd (x : NpArray)
  | ellipsis
  | noneKey
  | intIdx (n : Int)
  | other
  deriving DecidableEq, Repr

/-- An index expression: a single component or a tuple of components (the
embedding restricts tuple elements to non-tuple components; nested tuple
indices are outside the standard and the claims). -/
inductive Key where
  | atom (a : AKey)
  | tup (l : List AKey)
  deriving DecidableEq, Repr

/-- The stop-bound check of the slice branch of `_validate_index` (the source
checks `key.stop` after `key.start`, with `step` defaulting to 1). -/
def sliceStopCheck (s : PySlice) (n : Int) : Except PyErr AKey :=
  match s.stop with
  | none => .ok (.slice s)
  | some j =>
    let step : Int := s.step.getD 1
    if (step > 0 ∧ ¬(-n ≤ j ∧ j ≤ n)) ∨
       (step < 0 ∧ ¬(-n - 1 ≤ j ∧ j ≤ max 0 (n - 1))) then
      .error (.indexError "Slices with out-of-bounds stop are not allowed in the array API namespace")
    else .ok (.slice s)

/-- The slice branch of `_validate_index` for a known axis of size `n`: the
start bound is checked first, then the stop bound. -/
def sliceCheck (s : PySlice) (n : Int) : Except PyErr AKey :=
  match s.start with
  | none => sliceStopCheck s n
  | some i =>
    if ¬(-n ≤ i ∧ i ≤ max 0 (n - 1)) then
      .error (.indexError "Slices with out-of-bounds start are not allowed in the array API namespace")
    else sliceStopCheck s n

/-- `Array._validate_index` on a non-tuple component.  The final fallback
models `operator.index(key)`: raw engine arrays are integer-convertible
exactly when they are zero-dimensional with an integer dtype. -/
def validateAtom (a : AKey) (shape : Option (List Nat)) : Except PyErr AKey :=
  match a with
  | .slice s =>
    match shape with
    | none => .ok (.slice s)
    | some [] => .ok (.slice s)
    | some (size :: _) => sliceCheck s (size : Int)
  | .bool b => .ok (.bool b)
  | .arr x =>
    if x.dtype ∈ _integer_dtypes then
      if x.shape ≠ [] then
        .error (.indexError "Integer array indices with shape != () are not allowed in the array API namespace")
      else .ok (.nd x._array)
    else .ok (.nd x._array)
  | .nd x =>
    if x.dtype ∈ _integer_dtypes ∧ x.shape = [] then .ok (.intIdx x.item.toInt)
    else .error (.indexError "Only integers, slices, ellipsis, and boolean arrays are valid indices in the array API namespace")
  | .ellipsis => .ok .ellipsis
  | .noneKey => .error (.indexError "newaxis indices are not allowed in the array API namespace")
  | .intIdx n => .ok (.intIdx n)
  | .other => .error (.indexError "Only integers, slices, ellipsis, and boolean arrays are valid indices in the array API namespace")

/-- First pass of the tuple branch: validate each element with `shape = None`. -/
def validateList : List AKey → Except PyErr (List AKey)
  | [] => .ok []
  | a :: rest =>
    match validateAtom a none with
    | .error e => .error e
    | .ok a' =>
      match validateList rest with
      | .error e => .error e
      | .ok rest' => .ok (a' :: rest')

/-- The source's boolean-mask test on a validated tuple element:
`isinstance(idx, np.ndarray) and idx.dtype in _boolean_dtypes or
isinstance(idx, (bool, np.bool_))`. -/
def isBoolMask : AKey → Bool
  | .nd x => decide (x.dtype ∈ _boolean_dtypes)
  | .bool _ => true
  | _ => false

def isEllipsisA : AKey → Bool
  | .ellipsis => true
  | _ => false

/-- Per-axis second pass of the tuple branch: validate each paired element
against its single-axis shape, keeping only the error effect. -/
def checkPairs : List (AKey × Nat) → Except PyErr Unit
  | [] => .ok ()
  | (a, n) :: rest =>
    match validateAtom a (some [n]) with
    | .error e => .error e
    | .ok _ => checkPairs rest

/-- `Array._validate_index`: validates an index against the array API's
allowed subset, rewriting wrapper-array components to their raw engine
representation. -/
def validateIndex (key : Key) (shape : Option (List Nat)) : Except PyErr Key :=
  match key with
  | .atom a =>
    match validateAtom a shape with
    | .error e => .error e
    | .ok a' => .ok (.atom a')
  | .tup l =>
    match validateList l with
    | .error e => .error e
    | .ok l' =>
      if l'.any isBoolMask then
        if l'.length = 1 then .ok (.tup l')
        else .error (.indexError "Boolean array indices combined with other indices are not allowed in the array API namespace")
      else
        match shape with
        | none => .ok (.tup l')
        | some sh =>
          if 1 < l'.countP (fun a => isEllipsisA a) then .ok (.tup l')
          else
            let eI := l'.findIdx isEllipsisA
            match checkPairs ((l'.take eI).zip sh ++
                ((l'.drop (eI + 1)).reverse.zip ((sh.drop (eI + 1)).reverse))) with
            | .error e => .error e
            | .ok _ => .ok (.tup l')

/-! ## Helper lemmas -/

def exOk {α : Type} : Except PyErr α → Bool
  | .ok _ => true
  | .error _ => false

lemma ratTrunc_intCast (n : Int) : ratTrunc (n : ℚ) = n := by
  simp [ratTrunc, Rat.num_intCast, Rat.den_intCast]

lemma wrapInt_eq_of_inRange (d : Dtype) (n : Int) (h : inRange d n = true) :
    wrapInt d n = n := by
  cases d <;> simp [inRange, Dtype.isSigned, Dtype.bits, wrapInt] at h ⊢ <;> omega

lemma np_array_scalar_dtype (s : PySc) (d : Dtype) : (np_array_scalar s d).dtype = d := by
  unfold np_array_scalar; split_ifs <;> rfl

lemma np_array_scalar_shape (s : PySc) (d : Dtype) : (np_array_scalar s d).shape = [] := by
  unfold np_array_scalar; split_ifs <;> rfl

/-- Every dtype belongs to one of the three classes. -/
lemma dtype_class_total (d : Dtype) :
    d ∈ _boolean_dtypes ∨ d ∈ _integer_dtypes ∨ d ∈ _floating_dtypes := by
  cases d <;> simp [_boolean_dtypes, _integer_dtypes, _floating_dtypes]

lemma boolean_not_integer {d : Dtype} (h : d ∈ _boolean_dtypes) : d ∉ _integer_dtypes := by
  simp [_boolean_dtypes] at h; subst h; simp [_integer_dtypes]

lemma floating_not_boolean {d : Dtype} (h : d ∈ _floating_dtypes) : d ∉ _boolean_dtypes := by
  simp [_floating_dtypes] at h
  rcases h with h | h <;> subst h <;> simp [_boolean_dtypes]

lemma floating_not_integer {d : Dtype} (h : d ∈ _floating_dtypes) : d ∉ _integer_dtypes := by
  simp [_floating_dtypes] at h
  rcases h with h | h <;> subst h <;> simp [_integer_dtypes]

/-! ## C9: device identity -/

/-- C9: the foreign-buffer-exchange device-identity operation
(`__dlpack_device__`) signals a not-implemented error whenever device
identity is requested (and so does the `device` attribute accessor), since
device support is an unimplemented gap. -/
theorem C9_dlpack_device_not_implemented (self : Array) :
    Array.__dlpack_device__ self =
      .error (.notImplementedError "device support is not implemented") ∧
    Array.device self =
      .error (.notImplementedError "The device attribute is not yet implemented") :=
  ⟨rfl, rfl⟩

/-! ## C10: non-boolean non-integer array indices -/

/-- C10: a wrapper-array index component whose dtype is in neither the
boolean nor the integer class is accepted by the index validator regardless
of its shape, and its raw underlying-engine representation is returned
unchanged; the zero-dimensional shape restriction is enforced only for
integer-dtype-classed array indices (boolean-classed array indices are
likewise unrestricted). -/
theorem C10_array_index_validation (a : Array) (shape : Option (List Nat)) :
    (a.dtype ∉ _boolean_dtypes → a.dtype ∉ _integer_dtypes →
      validateAtom (.arr a) shape = .ok (.nd a._array)) ∧
    (a.dtype ∈ _boolean_dtypes →
      validateAtom (.arr a) shape = .ok (.nd a._array)) ∧
    (a.dtype ∈ _integer_dtypes → a.shape ≠ [] →
      isIndexError (validateAtom (.arr a) shape) = true) ∧
    (a.dtype ∈ _integer_dtypes → a.shape = [] →
      validateAtom (.arr a) shape = .ok (.nd a._array)) := by
  refine ⟨?_, ?_, ?_, ?_⟩
  · intro _ h2
    simp [validateAtom, h2]
  · intro h
    have h2 := boolean_not_integer h
    simp [validateAtom, h2]
  · intro h1 h2
    simp [validateAtom, h1, h2, isIndexError]
  · intro h1 h2
    simp [validateAtom, h1, h2]

/-- Witness for C10 at a concrete input: a floating-dtype array of shape
`(2,)` is accepted as an index and rewritten to its raw representation. -/
theorem C10_witness :
    (Array.mk ⟨.float64, [2], [.float 1, .float 2]⟩).dtype ∉ _boolean_dtypes ∧
    (Array.mk ⟨.float64, [2], [.float 1, .float 2]⟩).dtype ∉ _integer_dtypes ∧
    validateAtom (.arr ⟨⟨.float64, [2], [.float 1, .float 2]⟩⟩) (some [2]) =
      .ok (.nd ⟨.float64, [2], [.float 1, .float 2]⟩) :=
  ⟨by decide, by decide,
    (C10_array_index_validation ⟨⟨.float64, [2], [.float 1, .float 2]⟩⟩ (some [2])).1
      (by decide) (by decide)⟩

/-! ## C1: scalar promotion -/

/-- C1 counterexample: promoting the integer scalar 300 with an `int8`-dtype
array succeeds (the engine casts out-of-range integers with wraparound, as
the spec's rule table defers to it), but the resulting value 44 differs from
the input scalar — refuting the claim that on success the result's value
always equals the scalar. -/
theorem C1_counterexample :
    Array._promote_scalar ⟨⟨.int8, [], [.int 0]⟩⟩ (.sc (.int 300)) =
      .ok ⟨⟨.int8, [], [.int 44]⟩⟩ ∧
    (Array.mk ⟨.int8, [], [.int 44]⟩)._array.item.toRat ≠ (PySc.int 300).toRat := by
  exact ⟨rfl, by decide⟩

/-- C1 (amended): scalar promotion succeeds for a boolean scalar iff the
array's dtype is boolean-classed, for an integer scalar iff the dtype is not
boolean-classed, for a float scalar iff the dtype is floating-classed; any
other input (and every failure) is a type-compatibility error; on success the
result is a zero-dimensional wrapper of exactly `self`'s dtype whose value
equals the scalar whenever the scalar is representable in that dtype
(out-of-range integers are cast with the engine's wraparound). -/
theorem C1_scalar_promotion_amended (self : Array) (v : PyVal) :
    (∀ b, v = .sc (.bool b) →
      (exOk (self._promote_scalar v) = true ↔ self.dtype ∈ _boolean_dtypes)) ∧
    (∀ n, v = .sc (.int n) →
      (exOk (self._promote_scalar v) = true ↔ self.dtype ∉ _boolean_dtypes)) ∧
    (∀ q, v = .sc (.float q) →
      (exOk (self._promote_scalar v) = true ↔ self.dtype ∈ _floating_dtypes)) ∧
    (v = .other → isTypeError (self._promote_scalar v) = true) ∧
    (exOk (self._promote_scalar v) = false →
      isTypeError (self._promote_scalar v) = true) ∧
    (∀ r, self._promote_scalar v = .ok r →
      r.shape = [] ∧ r.dtype = self.dtype ∧
      (∀ s, v = .sc s →
        (self.dtype ∈ _integer_dtypes → inRange self.dtype (ratTrunc s.toRat) = true) →
        r._array.item.toRat = s.toRat)) := by
  refine ⟨?_, ?_, ?_, ?_, ?_, ?_⟩
  · rintro b rfl
    by_cases h : self.dtype ∈ _boolean_dtypes <;>
      simp [Array._promote_scalar, h, exOk]
  · rintro n rfl
    by_cases h : self.dtype ∈ _boolean_dtypes <;>
      simp [Array._promote_scalar, h, exOk]
  · rintro q rfl
    by_cases h : self.dtype ∈ _floating_dtypes <;>
      simp [Array._promote_scalar, h, exOk]
  · rintro rfl; rfl
  · intro h
    cases v with
    | other => rfl
    | sc s =>
      cases s with
      | bool b =>
        by_cases hb : self.dtype ∈ _boolean_dtypes
        · simp [Array._promote_scalar, hb, exOk] at h
        · simp [Array._promote_scalar, hb, isTypeError]
      | int n =>
        by_cases hb : self.dtype ∈ _boolean_dtypes
        · simp [Array._promote_scalar, hb, isTypeError]
        · simp [Array._promote_scalar, hb, exOk] at h
      | float q =>
        by_cases hf : self.dtype ∈ _floating_dtypes
        · simp [Array._promote_scalar, hf, exOk] at h
        · simp [Array._promote_scalar, hf, isTypeError]
  · intro r hr
    cases v with
    | other => simp [Array._promote_scalar] at hr
    | sc s =>
      cases s with
      | bool b =>
        by_cases hb : self.dtype ∈ _boolean_dtypes
        · simp [Array._promote_scalar, hb] at hr
          subst hr
          refine ⟨np_array_scalar_shape _ _, np_array_scalar_dtype _ _, ?_⟩
          rintro s ⟨rfl⟩ _
          cases b <;>
            simp [np_array_scalar, hb, NpArray.item, Array._new, PySc.toRat, Val.toRat]
        · simp [Array._promote_scalar, hb] at hr
      | int n =>
        by_cases hb : self.dtype ∈ _boolean_dtypes
        · simp [Array._promote_scalar, hb] at hr
        · simp [Array._promote_scalar, hb] at hr
          subst hr
          refine ⟨np_array_scalar_shape _ _, np_array_scalar_dtype _ _, ?_⟩
          rintro s ⟨rfl⟩ hrange
          rcases dtype_class_total self.dtype with hc | hc | hc
          · exact absurd hc hb
          · have h1 : inRange self.dtype (ratTrunc (PySc.toRat (.int n))) = true :=
              hrange hc
            simp [PySc.toRat, ratTrunc_intCast] at h1
            simp [np_array_scalar, hb, hc, NpArray.item, Array._new, PySc.toRat,
              ratTrunc_intCast, wrapInt_eq_of_inRange _ _ h1, Val.toRat]
          · have hi := floating_not_integer hc
            simp [np_array_scalar, hb, hi, NpArray.item, Array._new, Val.toRat]
      | float q =>
        by_cases hf : self.dtype ∈ _floating_dtypes
        · simp [Array._promote_scalar, hf] at hr
          subst hr
          refine ⟨np_array_scalar_shape _ _, np_array_scalar_dtype _ _, ?_⟩
          rintro s ⟨rfl⟩ _
          have hb := floating_not_boolean hf
          have hi := floating_not_integer hf
          simp [np_array_scalar, hb, hi, NpArray.item, Array._new, Val.toRat, PySc.toRat]
        · simp [Array._promote_scalar, hf] at hr

/-- Witness for the amended C1 at a concrete input: promoting the in-range
integer 5 with an `int32` array yields a zero-dimensional `int32` wrapper
holding exactly 5. -/
theorem C1_witness :
    Array._promote_scalar ⟨⟨.int32, [], [.int 0]⟩⟩ (.sc (.int 5)) =
      .ok ⟨⟨.int32, [], [.int 5]⟩⟩ ∧
    (Array.mk ⟨.int32, [], [.int 5]⟩).shape = [] ∧
    (Array.mk ⟨.int32, [], [.int 5]⟩).dtype = .int32 ∧
    (Array.mk ⟨.int32, [], [.int 5]⟩)._array.item.toRat = (PySc.int 5).toRat := by
  have h := (C1_scalar_promotion_amended ⟨⟨.int32, [], [.int 0]⟩⟩
    (.sc (.int 5))).2.2.2.2.2 ⟨⟨.int32, [], [.int 5]⟩⟩ rfl
  exact ⟨rfl, h.1, h.2.1, h.2.2 _ rfl (by decide)⟩

/-! ## C8: round trip promote / extract -/

/-- C8: promoting an in-range integer scalar (resp. a float scalar) and then
extracting with `__int__` (resp. `__float__`) returns the original scalar
value exactly. -/
theorem C8_round_trip (self : Array) :
    (∀ (n : Int) (r : Array), self._promote_scalar (.sc (.int n)) = .ok r →
      (self.dtype ∈ _integer_dtypes → inRange self.dtype n = true) →
      r.__int__ = .ok n) ∧
    (∀ (q : ℚ) (r : Array), self._promote_scalar (.sc (.float q)) = .ok r →
      r.__float__ = .ok q) := by
  constructor
  · intro n r hr hrange
    by_cases hb : self.dtype ∈ _boolean_dtypes
    · simp [Array._promote_scalar, hb] at hr
    · simp [Array._promote_scalar, hb] at hr
      subst hr
      rcases dtype_class_total self.dtype with hc | hc | hc
      · exact absurd hc hb
      · have hn : ratTrunc ((PySc.int n).toRat) = n := by
          simp [PySc.toRat, ratTrunc_intCast]
        have hw : wrapInt self.dtype n = n := wrapInt_eq_of_inRange _ _ (hrange hc)
        simp [Array.__int__, Array._new, np_array_scalar, hb, hc, NpArray.item,
          Val.toInt, Val.toRat, hn, hw, ratTrunc_intCast]
      · have hi := floating_not_integer hc
        simp [Array.__int__, Array._new, np_array_scalar, hb, hi, NpArray.item,
          Val.toInt, Val.toRat, PySc.toRat, ratTrunc_intCast]
  · intro q r hr
    by_cases hf : self.dtype ∈ _floating_dtypes
    · simp [Array._promote_scalar, hf] at hr
      subst hr
      have hb := floating_not_boolean hf
      have hi := floating_not_integer hf
      simp [Array.__float__, Array._new, np_array_scalar, hb, hi, NpArray.item,
        Val.toRat, PySc.toRat]
    · simp [Array._promote_scalar, hf] at hr

/-- Witness for C8 at concrete inputs: `7` survives the round trip through an
`int32` target, and `1/2` survives the round trip through a `float64`
target. -/
theorem C8_witness :
    Array._promote_scalar ⟨⟨.int32, [], [.int 0]⟩⟩ (.sc (.int 7)) =
      .ok ⟨⟨.int32, [], [.int 7]⟩⟩ ∧
    Array.__int__ ⟨⟨.int32, [], [.int 7]⟩⟩ = .ok 7 ∧
    Array._promote_scalar ⟨⟨.float64, [], [.float 0]⟩⟩ (.sc (.float (1/2))) =
      .ok ⟨⟨.float64, [], [.float (1/2)]⟩⟩ ∧
    Array.__float__ ⟨⟨.float64, [], [.float (1/2)]⟩⟩ = .ok (1/2) :=
  ⟨rfl, (C8_round_trip ⟨⟨.int32, [], [.int 0]⟩⟩).1 7 ⟨⟨.int32, [], [.int 7]⟩⟩ rfl
      (by decide),
    rfl, (C8_round_trip ⟨⟨.float64, [], [.float 0]⟩⟩).2 (1/2)
      ⟨⟨.float64, [], [.float (1/2)]⟩⟩ rfl⟩

/-! ## C5: slice bound validation -/

/-- The claim's legality formula for the start bound of a slice on an axis of
size `n`. -/
def specStartLegal (n : Nat) : Option Int → Bool
  | none => true
  | some i => decide (-(n : Int) ≤ i ∧ i ≤ max 0 ((n : Int) - 1))

/-- The claim's legality formula for the stop bound of a slice on an axis of
size `n` with the given step. -/
def specStopLegal (n : Nat) : Option Int → Option Int → Bool
  | _, none => true
  | step, some j =>
    let k : Int := step.getD 1
    if 0 < k then decide (-(n : Int) ≤ j ∧ j ≤ (n : Int))
    else if k < 0 then decide (-(n : Int) - 1 ≤ j ∧ j ≤ max 0 ((n : Int) - 1))
    else true

/-- C5: a slice with integer-convertible bounds, validated against a known
axis of size `n`, is accepted exactly when the claim's start/stop bound
formulas hold, and every violation fails with an indexing error. -/
theorem C5_slice_bounds (s : PySlice) (n : Nat) (rest : List Nat) :
    (validateAtom (.slice s) (some (n :: rest)) = .ok (.slice s) ↔
      (specStartLegal n s.start && specStopLegal n s.step s.stop) = true) ∧
    ((specStartLegal n s.start && specStopLegal n s.step s.stop) = false →
      isIndexError (validateAtom (.slice s) (some (n :: rest))) = true) := by
  rcases s with ⟨i, j, k⟩
  cases i with
  | none =>
    cases j with
    | none =>
      simp [validateAtom, sliceCheck, sliceStopCheck, specStartLegal, specStopLegal]
    | some jv =>
      cases k with
      | none =>
        by_cases hP : -(n : Int) ≤ jv ∧ jv ≤ (n : Int) <;>
          simp [validateAtom, sliceCheck, sliceStopCheck, specStartLegal,
            specStopLegal, hP, isIndexError, Option.getD]
      | some kv =>
        rcases lt_trichotomy kv 0 with hk | hk | hk
        · by_cases hQ : -(n : Int) - 1 ≤ jv ∧ jv ≤ max 0 ((n : Int) - 1) <;>
            simp [validateAtom, sliceCheck, sliceStopCheck, specStartLegal,
              specStopLegal, hk, hQ, asymm hk, isIndexError, Option.getD] <;>
            exact ⟨by omega, fun h => by rw [if_pos h]⟩
        · subst hk
          simp [validateAtom, sliceCheck, sliceStopCheck, specStartLegal,
            specStopLegal, isIndexError, Option.getD]
        · by_cases hP : -(n : Int) ≤ jv ∧ jv ≤ (n : Int) <;>
            simp [validateAtom, sliceCheck, sliceStopCheck, specStartLegal,
              specStopLegal, hk, hP, asymm hk, isIndexError, Option.getD]
  | some iv =>
    by_cases hS : -(n : Int) ≤ iv ∧ iv ≤ max 0 ((n : Int) - 1)
    · cases j with
      | none =>
        simp [validateAtom, sliceCheck, sliceStopCheck, specStartLegal,
          specStopLegal, hS]
      | some jv =>
        cases k with
        | none =>
          by_cases hP : -(n : Int) ≤ jv ∧ jv ≤ (n : Int) <;>
            simp [validateAtom, sliceCheck, sliceStopCheck, specStartLegal,
              specStopLegal, hS, hP, isIndexError, Option.getD]
        | some kv =>
          rcases lt_trichotomy kv 0 with hk | hk | hk
          · by_cases hQ : -(n : Int) - 1 ≤ jv ∧ jv ≤ max 0 ((n : Int) - 1) <;>
              simp [validateAtom, sliceCheck, sliceStopCheck, specStartLegal,
                specStopLegal, hS, hk, hQ, asymm hk, isIndexError, Option.getD] <;>
              exact ⟨by omega, fun h => by rw [if_pos h]⟩
          · subst hk
            simp [validateAtom, sliceCheck, sliceStopCheck, specStartLegal,
              specStopLegal, hS, isIndexError, Option.getD]
          · by_cases hP : -(n : Int) ≤ jv ∧ jv ≤ (n : Int) <;>
              simp [validateAtom, sliceCheck, sliceStopCheck, specStartLegal,
                specStopLegal, hS, hk, hP, asymm hk, isIndexError, Option.getD]
    · have he : validateAtom (.slice ⟨some iv, j, k⟩) (some (n :: rest)) =
          .error (.indexError "Slices with out-of-bounds start are not allowed in the array API namespace") := by
        show sliceCheck ⟨some iv, j, k⟩ (n : Int) = _
        simp only [sliceCheck]
        exact if_pos hS
      refine ⟨?_, fun _ => ?_⟩
      · rw [he]
        simp only [specStartLegal]
        constructor
        · intro h
          exact absurd h (by simp)
        · intro h
          rw [Bool.and_eq_true] at h
          exact absurd (of_decide_eq_true h.1) hS
      · rw [he]
        rfl

/-- Witness for C5 at the exact boundary values: on an axis of size 3 the
slice `-3:3` is legal and accepted. -/
theorem C5_witness :
    (specStartLegal 3 (some (-3)) && specStopLegal 3 none (some 3)) = true ∧
    validateAtom (.slice ⟨some (-3), some 3, none⟩) (some [3]) =
      .ok (.slice ⟨some (-3), some 3, none⟩) :=
  ⟨by decide, (C5_slice_bounds ⟨some (-3), some 3, none⟩ 3 []).1.mpr (by decide)⟩

/-! ## C6: boolean masks only as the sole index -/

/-- A raw (pre-validation) index component that is boolean-masked: a boolean
scalar or a boolean-dtype array (wrapper or raw). -/
def isRawBoolMask : AKey → Bool
  | .bool _ => true
  | .arr a => decide (a.dtype ∈ _boolean_dtypes)
  | .nd x => decide (x.dtype ∈ _boolean_dtypes)
  | _ => false

lemma sliceStopCheck_error (s : PySlice) (n : Int) (e : PyErr)
    (h : sliceStopCheck s n = .error e) : ∃ m, e = .indexError m := by
  rcases s with ⟨i, j, k⟩
  cases j with
  | none => simp [sliceStopCheck] at h
  | some jv =>
    by_cases hc : ((k.getD 1 > 0 ∧ ¬(-n ≤ jv ∧ jv ≤ n)) ∨
        (k.getD 1 < 0 ∧ ¬(-n - 1 ≤ jv ∧ jv ≤ max 0 (n - 1))))
    · rw [show sliceStopCheck ⟨i, some jv, k⟩ n =
          .error (.indexError "Slices with out-of-bounds stop are not allowed in the array API namespace") from
        if_pos hc] at h
      cases h
      exact ⟨_, rfl⟩
    · rw [show sliceStopCheck ⟨i, some jv, k⟩ n = .ok (.slice ⟨i, some jv, k⟩) from
        if_neg hc] at h
      cases h

lemma sliceCheck_error (s : PySlice) (n : Int) (e : PyErr)
    (h : sliceCheck s n = .error e) : ∃ m, e = .indexError m := by
  rcases s with ⟨i, j, k⟩
  cases i with
  | none => exact sliceStopCheck_error _ _ _ h
  | some iv =>
    by_cases hc : ¬(-n ≤ iv ∧ iv ≤ max 0 (n - 1))
    · rw [show sliceCheck ⟨some iv, j, k⟩ n =
          .error (.indexError "Slices with out-of-bounds start are not allowed in the array API namespace") from
        if_pos hc] at h
      cases h
      exact ⟨_, rfl⟩
    · rw [show sliceCheck ⟨some iv, j, k⟩ n = sliceStopCheck ⟨some iv, j, k⟩ n from
        if_neg hc] at h
      exact sliceStopCheck_error _ _ _ h

lemma validateAtom_error (a : AKey) (shape : Option (List Nat)) (e : PyErr)
    (h : validateAtom a shape = .error e) : ∃ m, e = .indexError m := by
  cases a with
  | slice s =>
    cases shape with
    | none => simp [validateAtom] at h
    | some sh =>
      cases sh with
      | nil => simp [validateAtom] at h
      | cons size rest => exact sliceCheck_error s (size : Int) e h
  | bool b => simp [validateAtom] at h
  | arr x =>
    by_cases h1 : x.dtype ∈ _integer_dtypes
    · by_cases h2 : x.shape ≠ []
      · rw [show validateAtom (.arr x) shape =
            .error (.indexError "Integer array indices with shape != () are not allowed in the array API namespace") from by
          simp [validateAtom, h1, h2]] at h
        cases h
        exact ⟨_, rfl⟩
      · rw [show validateAtom (.arr x) shape = .ok (.nd x._array) from by
          simp [validateAtom, h1, h2]] at h
        cases h
    · rw [show validateAtom (.arr x) shape = .ok (.nd x._array) from by
        simp [validateAtom, h1]] at h
      cases h
  | nd x =>
    by_cases h1 : (x.dtype ∈ _integer_dtypes ∧ x.shape = [])
    · rw [show validateAtom (.nd x) shape = .ok (.intIdx x.item.toInt) from if_pos h1] at h
      cases h
    · rw [show validateAtom (.nd x) shape =
          .error (.indexError "Only integers, slices, ellipsis, and boolean arrays are valid indices in the array API namespace") from
        if_neg h1] at h
      cases h
      exact ⟨_, rfl⟩
  | ellipsis => simp [validateAtom] at h
  | noneKey =>
    rw [show validateAtom .noneKey shape =
        .error (.indexError "newaxis indices are not allowed in the array API namespace") from rfl] at h
    cases h
    exact ⟨_, rfl⟩
  | intIdx n => simp [validateAtom] at h
  | other =>
    rw [show validateAtom .other shape =
        .error (.indexError "Only integers, slices, ellipsis, and boolean arrays are valid indices in the array API namespace") from rfl] at h
    cases h
    exact ⟨_, rfl⟩

lemma validateList_error (l : List AKey) (e : PyErr)
    (h : validateList l = .error e) : ∃ m, e = .indexError m := by
  induction l with
  | nil => simp [validateList] at h
  | cons a rest ih =>
    unfold validateList at h
    cases ha : validateAtom a none with
    | error e1 =>
      rw [ha] at h
      simp at h
      subst h
      exact validateAtom_error _ _ _ ha
    | ok a' =>
      rw [ha] at h
      cases hr : validateList rest with
      | error e1 =>
        rw [hr] at h
        simp at h
        subst h
        exact ih hr
      | ok rest' =>
        rw [hr] at h
        simp at h

lemma validateList_length (l l' : List AKey) (h : validateList l = .ok l') :
    l'.length = l.length := by
  induction l generalizing l' with
  | nil => simp [validateList] at h; simp [h.symm]
  | cons a rest ih =>
    unfold validateList at h
    cases ha : validateAtom a none with
    | error e1 => rw [ha] at h; simp at h
    | ok a' =>
      rw [ha] at h
      cases hr : validateList rest with
      | error e1 => rw [hr] at h; simp at h
      | ok rest' =>
        rw [hr] at h
        simp at h
        subst h
        simp [ih rest' hr]

lemma validateAtom_mask (a a' : AKey) (h1 : isRawBoolMask a = true)
    (h2 : validateAtom a none = .ok a') : isBoolMask a' = true := by
  cases a with
  | bool b =>
    simp [validateAtom] at h2
    simp [← h2, isBoolMask]
  | arr x =>
    simp [isRawBoolMask] at h1
    have hni : x.dtype ∉ _integer_dtypes := boolean_not_integer h1
    simp [validateAtom, hni] at h2
    simp [← h2, isBoolMask]
    exact h1
  | nd x =>
    simp [isRawBoolMask] at h1
    have hni : x.dtype ∉ _integer_dtypes := boolean_not_integer h1
    simp [validateAtom, hni] at h2
  | slice s => simp [isRawBoolMask] at h1
  | ellipsis => simp [isRawBoolMask] at h1
  | noneKey => simp [isRawBoolMask] at h1
  | intIdx n => simp [isRawBoolMask] at h1
  | other => simp [isRawBoolMask] at h1

lemma validateList_mask (l l' : List AKey) (h : validateList l = .ok l')
    (hm : l.any isRawBoolMask = true) : l'.any isBoolMask = true := by
  induction l generalizing l' with
  | nil => simp at hm
  | cons a rest ih =>
    unfold validateList at h
    cases ha : validateAtom a none with
    | error e1 => rw [ha] at h; simp at h
    | ok a' =>
      rw [ha] at h
      cases hr : validateList rest with
      | error e1 => rw [hr] at h; simp at h
      | ok rest' =>
        rw [hr] at h
        simp at h
        subst h
        simp only [List.any_cons, Bool.or_eq_true] at hm ⊢
        rcases hm with hm | hm
        · exact Or.inl (validateAtom_mask _ _ hm ha)
        · exact Or.inr (ih rest' hr hm)

/-- C6: a tuple index of length greater than 1 that contains a
boolean-masked element (boolean scalar or boolean-dtype array) always fails
validation with an indexing error, while a boolean mask as the sole index —
as a one-element tuple or as a lone mask — is accepted. -/
theorem C6_bool_mask_tuple :
    (∀ (l : List AKey) (shape : Option (List Nat)), 1 < l.length →
      l.any isRawBoolMask = true →
      isIndexError (validateIndex (.tup l) shape) = true) ∧
    (∀ (a : Array) (shape : Option (List Nat)), a.dtype ∈ _boolean_dtypes →
      validateIndex (.tup [.arr a]) shape = .ok (.tup [.nd a._array]) ∧
      validateIndex (.atom (.arr a)) shape = .ok (.atom (.nd a._array))) := by
  constructor
  · intro l shape hlen hmask
    cases hv : validateList l with
    | error e =>
      obtain ⟨m, rfl⟩ := validateList_error _ _ hv
      simp [validateIndex, hv, isIndexError]
    | ok l' =>
      have hlen' : l'.length = l.length := validateList_length _ _ hv
      have hmask' : l'.any isBoolMask = true := validateList_mask _ _ hv hmask
      have hne : ¬(l'.length = 1) := by omega
      simp [validateIndex, hv, hmask', hne, isIndexError]
  · intro a shape hb
    have hni : a.dtype ∉ _integer_dtypes := boolean_not_integer hb
    have hmm : isBoolMask (.nd a._array) = true := by
      simp [isBoolMask]
      exact hb
    constructor
    · simp [validateIndex, validateList, validateAtom, hni, hmm]
    · simp [validateIndex, validateAtom, hni]

/-- Witness for C6 at concrete inputs: `(bool_mask, 0)` on a 2-D array fails
with an indexing error, and `(bool_mask,)` alone succeeds. -/
theorem C6_witness :
    isIndexError (validateIndex
      (.tup [.arr ⟨⟨.bool, [2], [.bool true, .bool false]⟩⟩, .intIdx 0])
      (some [2, 2])) = true ∧
    validateIndex (.tup [.arr ⟨⟨.bool, [2], [.bool true, .bool false]⟩⟩])
      (some [2, 2]) =
      .ok (.tup [.nd ⟨.bool, [2], [.bool true, .bool false]⟩]) :=
  ⟨C6_bool_mask_tuple.1 [.arr ⟨⟨.bool, [2], [.bool true, .bool false]⟩⟩, .intIdx 0]
      (some [2, 2]) (by decide) (by decide),
    (C6_bool_mask_tuple.2 ⟨⟨.bool, [2], [.bool true, .bool false]⟩⟩
      (some [2, 2]) (by decide)).1⟩

/-! ## C4: shift result dtype -/

lemma astype_dtype (x : NpArray) (d : Dtype) : (x.astype d).dtype = d := rfl

lemma promote_scalar_ok_dtype (self r : Array) (v : PyVal)
    (h : self._promote_scalar v = .ok r) : r.dtype = self.dtype := by
  cases v with
  | other => simp [Array._promote_scalar] at h
  | sc s =>
    cases s with
    | bool b =>
      by_cases hb : self.dtype ∈ _boolean_dtypes
      · simp [Array._promote_scalar, hb] at h
        simp [← h, Array._new, Array.dtype, np_array_scalar_dtype]
      · simp [Array._promote_scalar, hb] at h
    | int n =>
      by_cases hb : self.dtype ∈ _boolean_dtypes
      · simp [Array._promote_scalar, hb] at h
      · simp [Array._promote_scalar, hb] at h
        simp [← h, Array._new, Array.dtype, np_array_scalar_dtype]
    | float q =>
      by_cases hf : self.dtype ∈ _floating_dtypes
      · simp [Array._promote_scalar, hf] at h
        simp [← h, Array._new, Array.dtype, np_array_scalar_dtype]
      · simp [Array._promote_scalar, hf] at h

lemma engineIBinop_ok (f : Val → Val → ℚ) (x y r : NpArray)
    (h : engineIBinop f x y = .ok r) : r.dtype = x.dtype ∧ r.shape = x.shape := by
  unfold engineIBinop at h
  cases hb : broadcastShapes x.shape y.shape with
  | none => rw [hb] at h; cases h
  | some sh =>
    rw [hb] at h
    dsimp only at h
    split_ifs at h with h1
    cases h
    exact ⟨rfl, rfl⟩

/-- The dtype of the left operand of the shift expression: for the reflected
methods this is the method's `other` argument (after promotion it carries
`self`'s dtype when it was a native scalar). -/
def leftOperandDtype (self : Array) : ScA → Dtype
  | .sc _ => self.dtype
  | .arr a => a.dtype

/-- C4: every shift operation forces the result dtype to the left operand of
the shift expression: `__lshift__`/`__rshift__` (and the in-place forms)
produce `self`'s dtype, `__rlshift__`/`__rrshift__` produce the dtype of the
method's `other` argument — regardless of the wider dtype the engine's
promotion computes. -/
theorem C4_shift_result_dtype (self : Array) (other : ScA) :
    (∀ r, Array.__lshift__ self other = .ok r → r.dtype = self.dtype) ∧
    (∀ r, Array.__rshift__ self other = .ok r → r.dtype = self.dtype) ∧
    (∀ r, Array.__rlshift__ self other = .ok r → r.dtype = leftOperandDtype self other) ∧
    (∀ r, Array.__rrshift__ self other = .ok r → r.dtype = leftOperandDtype self other) ∧
    (∀ r, Array.__ilshift__ self other = .ok r → r.dtype = self.dtype) ∧
    (∀ r, Array.__irshift__ self other = .ok r → r.dtype = self.dtype) := by
  have hleft : ∀ (o : Array), promoteOther self other = .ok o →
      o.dtype = leftOperandDtype self other := by
    intro o ho
    cases other with
    | sc s =>
      simp [promoteOther] at ho
      exact promote_scalar_ok_dtype _ _ _ ho
    | arr a =>
      simp [promoteOther] at ho
      simp [← ho, leftOperandDtype]
  refine ⟨?_, ?_, ?_, ?_, ?_, ?_⟩
  · intro r h
    unfold Array.__lshift__ at h
    cases hp : promoteOther self other with
    | error e => rw [hp] at h; cases h
    | ok o =>
      rw [hp] at h
      dsimp only at h
      cases he : engine_lshift self._array o._array with
      | error e => rw [he] at h; cases h
      | ok res => rw [he] at h; cases h; rfl
  · intro r h
    unfold Array.__rshift__ at h
    cases hp : promoteOther self other with
    | error e => rw [hp] at h; cases h
    | ok o =>
      rw [hp] at h
      dsimp only at h
      cases he : engine_rshift self._array o._array with
      | error e => rw [he] at h; cases h
      | ok res => rw [he] at h; cases h; rfl
  · intro r h
    unfold Array.__rlshift__ at h
    cases hp : promoteOther self other with
    | error e => rw [hp] at h; cases h
    | ok o =>
      rw [hp] at h
      dsimp only at h
      cases he : engine_lshift o._array self._array with
      | error e => rw [he] at h; cases h
      | ok res =>
        rw [he] at h
        cases h
        exact hleft o hp
  · intro r h
    unfold Array.__rrshift__ at h
    cases hp : promoteOther self other with
    | error e => rw [hp] at h; cases h
    | ok o =>
      rw [hp] at h
      dsimp only at h
      cases he : engine_rshift o._array self._array with
      | error e => rw [he] at h; cases h
      | ok res =>
        rw [he] at h
        cases h
        exact hleft o hp
  · intro r h
    unfold Array.__ilshift__ at h
    cases hp : promoteOther self other with
    | error e => rw [hp] at h; cases h
    | ok o =>
      rw [hp] at h
      dsimp only at h
      cases he : engineIBinop lshiftK self._array o._array with
      | error e => rw [he] at h; cases h
      | ok res =>
        rw [he] at h
        cases h
        exact (engineIBinop_ok _ _ _ _ he).1
  · intro r h
    unfold Array.__irshift__ at h
    cases hp : promoteOther self other with
    | error e => rw [hp] at h; cases h
    | ok o =>
      rw [hp] at h
      dsimp only at h
      cases he : engineIBinop rshiftK self._array o._array with
      | error e => rw [he] at h; cases h
      | ok res =>
        rw [he] at h
        cases h
        exact (engineIBinop_ok _ _ _ _ he).1

/-- Witness for C4 at a concrete input where the engine's promotion is
strictly wider than the left operand: `int8 << int64` — the engine promotes
to `int64`, yet the result dtype is forced back to `int8`. -/
theorem C4_witness :
    promoteTypes Dtype.int8 Dtype.int64 ≠ Dtype.int8 ∧
    Array.__lshift__ ⟨⟨.int8, [1], [.int 5]⟩⟩ (.arr ⟨⟨.int64, [1], [.int 1]⟩⟩) =
      .ok ⟨⟨.int8, [1], [.int 10]⟩⟩ ∧
    (Array.mk ⟨.int8, [1], [.int 10]⟩).dtype = (Array.mk ⟨.int8, [1], [.int 5]⟩).dtype :=
  ⟨by decide, by decide,
    (C4_shift_result_dtype ⟨⟨.int8, [1], [.int 5]⟩⟩
      (.arr ⟨⟨.int64, [1], [.int 1]⟩⟩)).1 ⟨⟨.int8, [1], [.int 10]⟩⟩ (by decide)⟩

/-! ## C3: division and power require floating dtypes -/

/-- Both operands are floating-point-classed after scalar promotion: a bool
scalar never promotes to a floating dtype; int/float scalars promote to
`self`'s dtype, so the promoted operand is floating exactly when `self` is. -/
def bothFloating (self : Array) : ScA → Bool
  | .sc (.bool _) => false
  | .sc _ => decide (self.dtype ∈ _floating_dtypes)
  | .arr a => decide (self.dtype ∈ _floating_dtypes) && decide (a.dtype ∈ _floating_dtypes)

lemma engineBinop_not_typeError (f : Val → Val → ℚ) (g : Dtype → Dtype → Dtype)
    (a b : NpArray) : isTypeError (engineBinop f g a b) = false := by
  unfold engineBinop
  cases h : broadcastShapes a.shape b.shape <;> simp [h, isTypeError]

lemma engineIBinop_not_typeError (f : Val → Val → ℚ) (a b : NpArray) :
    isTypeError (engineIBinop f a b) = false := by
  unfold engineIBinop
  cases h : broadcastShapes a.shape b.shape with
  | none => simp [h, isTypeError]
  | some sh =>
    simp only [h]
    split_ifs <;> simp [isTypeError]

lemma isTypeError_typeError {α : Type} (m : String) :
    isTypeError (α := α) (.error (.typeError m)) = true := rfl

lemma Array_new_dtype (x : NpArray) : (Array._new x).dtype = x.dtype := rfl

lemma isTypeError_dispatch_tail (eng : NpArray → NpArray → Except PyErr NpArray)
    (heng : ∀ a b, isTypeError (eng a b) = false) (a b : NpArray) (k : NpArray → Array) :
    isTypeError (match eng a b with
      | .error e => (.error e : Except PyErr Array)
      | .ok r => .ok (k r)) = false := by
  cases hx : eng a b with
  | ok r => rfl
  | error e =>
    have h := heng a b
    rw [hx] at h
    cases e <;> simp_all [isTypeError]

/-- The common type-compatibility gate of the division/power operators: a
type error is signalled exactly when the operands are not both
floating-classed after scalar promotion; otherwise the floating-only body
(which never raises a type error) runs. -/
lemma checkedDispatch_typeError (msg : String) (body : Array → Array → Except PyErr Array)
    (hbody : ∀ s o, isTypeError (body s o) = false) (self : Array) (other : ScA) :
    isTypeError (match promoteOther self other with
      | .error e => .error e
      | .ok o =>
        if self.dtype ∉ _floating_dtypes ∨ o.dtype ∉ _floating_dtypes then
          .error (.typeError msg)
        else body self o) = !(bothFloating self other) := by
  cases other with
  | arr a =>
    by_cases h1 : self.dtype ∈ _floating_dtypes <;>
    by_cases h2 : a.dtype ∈ _floating_dtypes <;>
      simp [promoteOther, bothFloating, h1, h2, isTypeError_typeError, hbody]
  | sc s =>
    cases s with
    | bool b =>
      by_cases hb : self.dtype ∈ _boolean_dtypes
      · have hf : self.dtype ∉ _floating_dtypes := by
          simp [_boolean_dtypes] at hb
          rw [hb]
          decide
        simp [promoteOther, Array._promote_scalar, hb, hf, bothFloating,
          isTypeError_typeError, Array_new_dtype, np_array_scalar_dtype, hbody]
      · simp [promoteOther, Array._promote_scalar, hb, bothFloating,
          isTypeError_typeError, hbody]
    | int n =>
      by_cases hb : self.dtype ∈ _boolean_dtypes
      · have hf : self.dtype ∉ _floating_dtypes := by
          simp [_boolean_dtypes] at hb
          rw [hb]
          decide
        simp [promoteOther, Array._promote_scalar, hb, hf, bothFloating,
          isTypeError_typeError, hbody]
      · by_cases hf : self.dtype ∈ _floating_dtypes <;>
          simp [promoteOther, Array._promote_scalar, hb, hf, bothFloating,
            isTypeError_typeError, Array_new_dtype, np_array_scalar_dtype, hbody]
    | float q =>
      by_cases hf : self.dtype ∈ _floating_dtypes <;>
        simp [promoteOther, Array._promote_scalar, hf, bothFloating,
          isTypeError_typeError, Array_new_dtype, np_array_scalar_dtype, hbody]

/-- C3: every power and true-division operation (`__truediv__`, `__pow__`,
their reflected and in-place forms) fails with a type-compatibility error
exactly when the operands are not both floating-point-classed after scalar
promotion, and otherwise proceeds to the underlying engine — for example
`2.0 ** 3.0 == 8.0`. -/
theorem C3_div_pow_floating_only :
    (∀ (self : Array) (other : ScA),
      isTypeError (Array.__truediv__ self other) = !(bothFloating self other) ∧
      isTypeError (Array.__rtruediv__ self other) = !(bothFloating self other) ∧
      isTypeError (Array.__itruediv__ self other) = !(bothFloating self other) ∧
      isTypeError (Array.__pow__ self other) = !(bothFloating self other) ∧
      isTypeError (Array.__rpow__ self other) = !(bothFloating self other) ∧
      isTypeError (Array.__ipow__ self other) = !(bothFloating self other)) ∧
    Array.__pow__ ⟨⟨.float64, [], [.float 2]⟩⟩ (.sc (.float 3)) =
      .ok ⟨⟨.float64, [], [.float 8]⟩⟩ := by
  constructor
  · intro self other
    refine ⟨?_, ?_, ?_, ?_, ?_, ?_⟩
    · exact checkedDispatch_typeError
        "Only floating-point dtypes are allowed in __truediv__"
        (fun s o =>
          match engine_truediv (Array._normalize_two_args s o).1._array
              (Array._normalize_two_args s o).2._array with
          | .error e => .error e
          | .ok r => .ok (Array._new r))
        (fun s o => isTypeError_dispatch_tail _
          (engineBinop_not_typeError divK promoteTypes) _ _ _)
        self other
    · exact checkedDispatch_typeError
        "Only floating-point dtypes are allowed in __truediv__"
        (fun s o =>
          match engine_truediv (Array._normalize_two_args s o).2._array
              (Array._normalize_two_args s o).1._array with
          | .error e => .error e
          | .ok r => .ok (Array._new r))
        (fun s o => isTypeError_dispatch_tail _
          (engineBinop_not_typeError divK promoteTypes) _ _ _)
        self other
    · exact checkedDispatch_typeError
        "Only floating-point dtypes are allowed in __truediv__"
        (fun s o =>
          match engineIBinop divK s._array o._array with
          | .error e => .error e
          | .ok r => .ok ⟨r⟩)
        (fun s o => isTypeError_dispatch_tail _
          (engineIBinop_not_typeError divK) _ _ _)
        self other
    · exact checkedDispatch_typeError
        "Only floating-point dtypes are allowed in __pow__"
        (fun s o => ew_pow s o)
        (fun s o => isTypeError_dispatch_tail _
          (engineBinop_not_typeError powK promoteTypes) _ _ _)
        self other
    · exact checkedDispatch_typeError
        "Only floating-point dtypes are allowed in __pow__"
        (fun s o => ew_pow o s)
        (fun s o => isTypeError_dispatch_tail _
          (engineBinop_not_typeError powK promoteTypes) _ _ _)
        self other
    · exact checkedDispatch_typeError
        "Only floating-point dtypes are allowed in __pow__"
        (fun s o =>
          match engineIBinop powK s._array o._array with
          | .error e => .error e
          | .ok r => .ok ⟨r⟩)
        (fun s o => isTypeError_dispatch_tail _
          (engineIBinop_not_typeError powK) _ _ _)
        self other
  · decide

/-! ## C7: in-place matrix multiplication -/

/-- C7 counterexample: in-place matmul of a rank-1 receiver of shape `(3,)`
with a square `(3, 3)` right operand succeeds (the result shape `(3,)` equals
the receiver's shape), refuting the claim that it fails with a value error. -/
theorem C7_counterexample :
    Array.__imatmul__ ⟨⟨.int64, [3], [.int 1, .int 2, .int 3]⟩⟩
      (.arr ⟨⟨.int64, [3, 3], [.int 2, .int 0, .int 0,
        .int 0, .int 2, .int 0, .int 0, .int 0, .int 2]⟩⟩) =
      .ok ⟨⟨.int64, [3], [.int 2, .int 4, .int 6]⟩⟩ := by
  decide

/-- C7 (amended): in-place matmul fails with a value error before any
mutation whenever an operand is zero-dimensional, and whenever the right
operand has rank 1 or its last two axes differ; a rank-1 left operand with a
square right operand is allowed.  On `(2,3) @= (3,4)` it fails with a value
error; on `(3,3) @= (3,3)` it succeeds, keeping the receiver's dtype and
shape and overwriting its buffer with the product. -/
theorem C7_imatmul_amended :
    (∀ (self o : Array),
      (self.shape = [] ∨ o.shape = [] →
        Array.__imatmul__ self (.arr o) =
          .error (.valueError "@= requires at least one dimension")) ∧
      (¬(self.shape = [] ∨ o.shape = []) →
        (o.shape.length = 1 ∨ o.shape.getLastD 0 ≠ o.shape.dropLast.getLastD 0) →
        Array.__imatmul__ self (.arr o) =
          .error (.valueError "@= cannot change the shape of the input array"))) ∧
    Array.__imatmul__ ⟨⟨.int64, [2, 3], [.int 1, .int 2, .int 3, .int 4, .int 5, .int 6]⟩⟩
      (.arr ⟨⟨.int64, [3, 4], [.int 0, .int 1, .int 2, .int 3, .int 4, .int 5,
        .int 6, .int 7, .int 8, .int 9, .int 10, .int 11]⟩⟩) =
      .error (.valueError "@= cannot change the shape of the input array") ∧
    Array.__imatmul__ ⟨⟨.int64, [3, 3], [.int 2, .int 0, .int 0,
        .int 0, .int 2, .int 0, .int 0, .int 0, .int 2]⟩⟩
      (.arr ⟨⟨.int64, [3, 3], [.int 2, .int 0, .int 0,
        .int 0, .int 2, .int 0, .int 0, .int 0, .int 2]⟩⟩) =
      .ok ⟨⟨.int64, [3, 3], [.int 4, .int 0, .int 0,
        .int 0, .int 4, .int 0, .int 0, .int 0, .int 4]⟩⟩ := by
  refine ⟨?_, by decide, by decide⟩
  intro self o
  constructor
  · intro h
    simp [Array.__imatmul__, promoteOther, h]
  · intro h1 h2
    unfold Array.__imatmul__
    dsimp only [promoteOther]
    rw [if_neg h1, if_pos h2]

/-- Witness for the amended C7 at a concrete input: a zero-dimensional
receiver is rejected with the rank value error. -/
theorem C7_witness :
    Array.__imatmul__ ⟨⟨.int64, [], [.int 1]⟩⟩
      (.arr ⟨⟨.int64, [3, 3], [.int 2, .int 0, .int 0,
        .int 0, .int 2, .int 0, .int 0, .int 0, .int 2]⟩⟩) =
      .error (.valueError "@= requires at least one dimension") :=
  (C7_imatmul_amended.1 ⟨⟨.int64, [], [.int 1]⟩⟩
    ⟨⟨.int64, [3, 3], [.int 2, .int 0, .int 0,
      .int 0, .int 2, .int 0, .int 0, .int 0, .int 2]⟩⟩).1 (by decide)

/-! ## C2: the shape-asymmetry normalizer -/

/-- The spec's dispatch shape for the checked (floating-only) binary
operators: promote, gate on floating dtypes, normalize, delegate, wrap. -/
def checkedNormalizedDispatch (msg : String)
    (engineOp : NpArray → NpArray → Except PyErr NpArray)
    (self : Array) (other : ScA) : Except PyErr Array :=
  match promoteOther self other with
  | .error e => .error e
  | .ok o =>
    if self.dtype ∉ _floating_dtypes ∨ o.dtype ∉ _floating_dtypes then
      .error (.typeError msg)
    else
      let p := Array._normalize_two_args self o
      match engineOp p.1._array p.2._array with
      | .error e => .error e
      | .ok r => .ok (Array._new r)

/-- As `checkedNormalizedDispatch`, with the engine operands swapped
(reflected operator). -/
def checkedReflectedDispatch (msg : String)
    (engineOp : NpArray → NpArray → Except PyErr NpArray)
    (self : Array) (other : ScA) : Except PyErr Array :=
  match promoteOther self other with
  | .error e => .error e
  | .ok o =>
    if self.dtype ∉ _floating_dtypes ∨ o.dtype ∉ _floating_dtypes then
      .error (.typeError msg)
    else
      let p := Array._normalize_two_args self o
      match engineOp p.2._array p.1._array with
      | .error e => .error e
      | .ok r => .ok (Array._new r)

/-- C2 counterexample: `__iadd__` (an in-place binary arithmetic operator
outside the claim's shift/power exclusions) does not apply the normalizer: on
a zero-dimensional receiver and a `(1,)`-shaped operand the actual operation
fails with the engine's broadcast value error, while the
normalize-then-delegate form the claim demands would succeed. -/
theorem C2_counterexample :
    Array.__iadd__ ⟨⟨.float64, [], [.float 1]⟩⟩ (.arr ⟨⟨.float64, [1], [.float 2]⟩⟩) =
      .error (.valueError "non-broadcastable output operand") ∧
    normalizedDispatch (engineIBinop addK) ⟨⟨.float64, [], [.float 1]⟩⟩
      (.arr ⟨⟨.float64, [1], [.float 2]⟩⟩) = .ok ⟨⟨.float64, [1], [.float 3]⟩⟩ := by
  exact ⟨by decide, by decide⟩

/-- C2 (amended): the shape-asymmetry normalizer behaves as claimed on every
pair — a zero-dimensional operand paired with a non-zero-dimensional one is
replaced by a view with one leading dimension of size 1 inserted and its
dtype unchanged, and otherwise the pair is unchanged — and it is applied
before every non-in-place binary arithmetic/comparison/bitwise operation
(excluding shift and power); the in-place operators promote scalar operands
and delegate directly to the engine's in-place operation without
normalization. -/
theorem C2_normalizer_amended :
    (∀ x1 x2 : Array,
      (x1.shape = [] → x2.shape ≠ [] →
        Array._normalize_two_args x1 x2 =
          (Array._new ⟨x1._array.dtype, 1 :: x1._array.shape, x1._array.data⟩, x2)) ∧
      (x2.shape = [] → x1.shape ≠ [] →
        Array._normalize_two_args x1 x2 =
          (x1, Array._new ⟨x2._array.dtype, 1 :: x2._array.shape, x2._array.data⟩)) ∧
      ((x1.shape = [] ↔ x2.shape = []) →
        Array._normalize_two_args x1 x2 = (x1, x2))) ∧
    (∀ (self : Array) (other : ScA),
      Array.__add__ self other = normalizedDispatch engine_add self other ∧
      Array.__and__ self other = normalizedDispatch engine_and self other ∧
      Array.__eq__ self other = normalizedDispatch engine_eq self other ∧
      Array.__floordiv__ self other = normalizedDispatch engine_floordiv self other ∧
      Array.__ge__ self other = normalizedDispatch engine_ge self other ∧
      Array.__gt__ self other = normalizedDispatch engine_gt self other ∧
      Array.__le__ self other = normalizedDispatch engine_le self other ∧
      Array.__lt__ self other = normalizedDispatch engine_lt self other ∧
      Array.__mod__ self other = normalizedDispatch engine_mod self other ∧
      Array.__mul__ self other = normalizedDispatch engine_mul self other ∧
      Array.__ne__ self other = normalizedDispatch engine_ne self other ∧
      Array.__or__ self other = normalizedDispatch engine_or self other ∧
      Array.__sub__ self other = normalizedDispatch engine_sub self other ∧
      Array.__xor__ self other = normalizedDispatch engine_xor self other ∧
      Array.__truediv__ self other = checkedNormalizedDispatch
        "Only floating-point dtypes are allowed in __truediv__" engine_truediv self other ∧
      Array.__radd__ self other = reflectedDispatch engine_add self other ∧
      Array.__rand__ self other = reflectedDispatch engine_and self other ∧
      Array.__rfloordiv__ self other = reflectedDispatch engine_floordiv self other ∧
      Array.__rmod__ self other = reflectedDispatch engine_mod self other ∧
      Array.__rmul__ self other = reflectedDispatch engine_mul self other ∧
      Array.__ror__ self other = reflectedDispatch engine_or self other ∧
      Array.__rsub__ self other = reflectedDispatch engine_sub self other ∧
      Array.__rxor__ self other = reflectedDispatch engine_xor self other ∧
      Array.__rtruediv__ self other = checkedReflectedDispatch
        "Only floating-point dtypes are allowed in __truediv__" engine_truediv self other) ∧
    (∀ (self : Array) (other : ScA),
      Array.__iadd__ self other = inplaceDispatch addK self other ∧
      Array.__iand__ self other = inplaceDispatch andK self other ∧
      Array.__ifloordiv__ self other = inplaceDispatch floordivK self other ∧
      Array.__imod__ self other = inplaceDispatch modK self other ∧
      Array.__imul__ self other = inplaceDispatch mulK self other ∧
      Array.__ior__ self other = inplaceDispatch orK self other ∧
      Array.__isub__ self other = inplaceDispatch subK self other ∧
      Array.__ixor__ self other = inplaceDispatch xorK self other ∧
      Array.__ilshift__ self other = inplaceDispatch lshiftK self other ∧
      Array.__irshift__ self other = inplaceDispatch rshiftK self other) := by
  refine ⟨?_, ?_, ?_⟩
  · intro x1 x2
    refine ⟨?_, ?_, ?_⟩
    · intro h1 h2
      simp [Array._normalize_two_args, h1, h2, NpArray.newaxis]
    · intro h1 h2
      simp [Array._normalize_two_args, h1, h2, NpArray.newaxis]
    · intro hiff
      by_cases h : x1.shape = []
      · have h2 := hiff.mp h
        simp [Array._normalize_two_args, h, h2]
      · have h2 : x2.shape ≠ [] := fun hh => h (hiff.mpr hh)
        simp [Array._normalize_two_args, h, h2]
  · intro self other
    exact ⟨rfl, rfl, rfl, rfl, rfl, rfl, rfl, rfl, rfl, rfl, rfl, rfl, rfl,
      rfl, rfl, rfl, rfl, rfl, rfl, rfl, rfl, rfl, rfl, rfl⟩
  · intro self other
    exact ⟨rfl, rfl, rfl, rfl, rfl, rfl, rfl, rfl, rfl, rfl⟩

/-- Witness for the amended C2 at a concrete input: normalizing a
zero-dimensional array paired with a `(2,)`-shaped one inserts a leading
dimension of size 1, keeping dtype and buffer. -/
theorem C2_witness :
    Array._normalize_two_args ⟨⟨.float64, [], [.float 1]⟩⟩
      ⟨⟨.float64, [2], [.float 1, .float 2]⟩⟩ =
      (Array._new ⟨.float64, [1], [.float 1]⟩,
        ⟨⟨.float64, [2], [.float 1, .float 2]⟩⟩) :=
  (C2_normalizer_amended.1 ⟨⟨.float64, [], [.float 1]⟩⟩
    ⟨⟨.float64, [2], [.float 1, .float 2]⟩⟩).1 rfl (by decide)

end ArrayAPI
